import Mathlib

/-!
Verification development for the Agentic-Coding-Engine repository.

The repository ships a VS Code extension client (`BackendClient`,
`SidebarProvider`) in TypeScript, plus documentation of a backend workflow
engine (LangGraph multi-agent state graph with checkpointing, governance
limits and a human-review interrupt protocol).  The client code is embedded
shallowly below; the backend engine, whose Python sources are not part of the
repository, is modelled from the specification where a property depends on it.
-/

namespace AgenticEngine

/-! ## WebSocket client model (from `BackendClient.connectWebSocket`) -/

/-- The `type` discriminator of a parsed WebSocket message, as switched on in
`BackendClient.connectWebSocket`.  `unknown` stands for any other string, which
falls through to the `default` branch (a warning log, no callback). -/
inductive MsgType where
  | step_update
  | review_required
  | workflow_complete
  | error
  | unknown
deriving DecidableEq, Repr

/-- A parsed WebSocket message with the payload fields the client reads:
`current_step`, `plan`, `generated_files`, `active_agent` (used by the
sidebar callbacks) and `message` (the error text used in `reject`). -/
structure WsMessage where
  type : MsgType
  current_step : Nat
  plan : List String
  generated_files : List String
  active_agent : String
  message : String
deriving DecidableEq, Repr

/-- A callback invocation performed by the `switch` in `connectWebSocket`:
one of the four optional callbacks of `WebSocketCallbacks`, applied to the
received message. -/
inductive CallbackCall where
  | onStepUpdate (m : WsMessage)
  | onReviewRequired (m : WsMessage)
  | onComplete (m : WsMessage)
  | onError (m : WsMessage)
deriving DecidableEq, Repr

/-- The fate of the promise returned by `connectWebSocket`. -/
inductive PromiseOutcome where
  | stayPending
  | resolved
  | rejected (err : String)
deriving DecidableEq, Repr

/-- What handling one message does: which callbacks fire, whether
`ws.close()` is called, and whether the promise is settled. -/
structure DispatchResult where
  calls : List CallbackCall
  closes : Bool
  settle : PromiseOutcome
deriving DecidableEq, Repr

/-- The `switch (message.type)` body of `BackendClient.connectWebSocket`:
`step_update` only invokes `onStepUpdate`; `review_required` and
`workflow_complete` invoke their callback, close the socket and resolve;
`error` invokes `onError`, closes the socket and rejects with
`message.message`; anything else does nothing. -/
def dispatchMessage (m : WsMessage) : DispatchResult :=
  match m.type with
  | .step_update => ⟨[.onStepUpdate m], false, .stayPending⟩
  | .review_required => ⟨[.onReviewRequired m], true, .resolved⟩
  | .workflow_complete => ⟨[.onComplete m], true, .resolved⟩
  | .error => ⟨[.onError m], true, .rejected m.message⟩
  | .unknown => ⟨[], false, .stayPending⟩

/-- The observable outcome of one `connectWebSocket` call over a sequence of
incoming messages: all callback invocations, the promise outcome, and whether
the socket was closed. -/
structure WsRun where
  calls : List CallbackCall
  settled : PromiseOutcome
  closed : Bool
deriving DecidableEq, Repr

/-- Processing of the message stream by the `ws.on('message', ...)` handler:
messages are handled in order; once a handler calls `ws.close()` no further
message is delivered. -/
def processMessages : List WsMessage → WsRun
  | [] => ⟨[], .stayPending, false⟩
  | m :: rest =>
    let d := dispatchMessage m
    if d.closes then ⟨d.calls, d.settle, true⟩
    else
      let r := processMessages rest
      ⟨d.calls ++ r.calls, r.settled, r.closed⟩

/-- Message types on which `connectWebSocket` settles its promise. -/
def isTerminalMsg : MsgType → Bool
  | .review_required => true
  | .workflow_complete => true
  | .error => true
  | _ => false

/-- Spec-side description of how a message settles the connection promise:
resolve on `review_required` and `workflow_complete`, reject with the carried
error text on `error`, leave pending otherwise. -/
def specSettle (m : WsMessage) : PromiseOutcome :=
  match m.type with
  | .review_required => .resolved
  | .workflow_complete => .resolved
  | .error => .rejected m.message
  | _ => .stayPending

/-! ## WebSocket URL construction (from `connectWebSocket`) -/

/-- Whether the second list starts with the first one. -/
def hasPrefixChars : List Char → List Char → Bool
  | [], _ => true
  | _ :: _, [] => false
  | p :: ps, c :: cs => p = c && hasPrefixChars ps cs

/-- `this.baseUrl.replace(/^http/, 'ws')`: the anchored regex replaces a
leading `"http"` (and only that occurrence) by `"ws"`; a string not starting
with `"http"` is returned unchanged.  URLs are modelled as character lists. -/
def wsUrl (baseUrl : List Char) : List Char :=
  if hasPrefixChars ['h', 't', 't', 'p'] baseUrl then 'w' :: 's' :: baseUrl.drop 4
  else baseUrl

/-- The full WebSocket endpoint `` `${wsUrl}/ws/${sessionId}` ``. -/
def wsEndpoint (baseUrl sessionId : List Char) : List Char :=
  wsUrl baseUrl ++ ('/' :: 'w' :: 's' :: '/' :: []) ++ sessionId

/-- Spec-side restatement of the claimed URL rule: an `"https://"` base
becomes `"wss://"` (plus the remainder), any other base starting with
`"http"` has that leading `"http"` replaced by `"ws"`, and a base not
starting with `"http"` is left unchanged. -/
def wsUrlSpec (baseUrl : List Char) : List Char :=
  if hasPrefixChars ['h', 't', 't', 'p', 's', ':', '/', '/'] baseUrl then
    'w' :: 's' :: 's' :: ':' :: '/' :: '/' :: baseUrl.drop 8
  else if hasPrefixChars ['h', 't', 't', 'p'] baseUrl then 'w' :: 's' :: baseUrl.drop 4
  else baseUrl

/-! ## HTTP request bodies (from `BackendClient.startWorkflow` /
`BackendClient.submitReview`) -/

/-- Body of the workflow-start POST: `{request, project_path}`. -/
structure StartBody where
  request : String
  project_path : String
deriving DecidableEq, Repr

/-- `BackendClient.startWorkflow` issues `POST /workflow/start` with the
request text and the workspace path as body. -/
def startWorkflowPost (request projectPath : String) : String × StartBody :=
  ("/workflow/start", ⟨request, projectPath⟩)

/-- The session object of a successful start response; the client reads its
`session_id`. -/
structure WorkflowSession where
  session_id : String
  status : String
  message : String
deriving DecidableEq, Repr

/-- Body of the review POST: `{session_id, feedback, action}`. -/
structure ReviewBody where
  session_id : String
  feedback : String
  action : String
deriving DecidableEq, Repr

/-- `BackendClient.submitReview` issues `POST /workflow/review` with exactly
the session id, the feedback text and the action string as body. -/
def submitReviewPost (sessionId feedback action : String) : String × ReviewBody :=
  ("/workflow/review", ⟨sessionId, feedback, action⟩)

/-! ## SidebarProvider model (from `SidebarProvider.ts`) -/

/-- A `postMessage` payload sent from the extension to the webview. -/
inductive WebviewMsg where
  | addMessage (role content : String)
  | setThinking (thinking : Bool)
  | stepUpdate (step : Nat) (plan : List String) (agent : String)
  | reviewRequired (plan : List String) (files : List String)
  | workflowComplete (files : List String)
  | errorMsg (message : String)
deriving DecidableEq, Repr

/-- An externally observable action of the `SidebarProvider`: a webview post,
a backend HTTP call, or a WebSocket (re)connection for a session. -/
inductive ClientEffect where
  | postWebview (m : WebviewMsg)
  | startWorkflowCall (request projectPath : String)
  | submitReviewCall (body : ReviewBody)
  | connectWs (sessionId : String)
deriving DecidableEq, Repr

/-- The callbacks `SidebarProvider.connectToWorkflow` installs: each maps a
received message to the webview posts performed by the corresponding handler.
The error handler posts `error.message || 'An error occurred'` followed by
`setThinking false`. -/
def sidebarCallbacks : CallbackCall → List WebviewMsg
  | .onStepUpdate m => [.stepUpdate m.current_step m.plan m.active_agent]
  | .onReviewRequired m => [.reviewRequired m.plan m.generated_files, .setThinking false]
  | .onComplete m => [.workflowComplete m.generated_files, .setThinking false]
  | .onError m =>
      [.errorMsg (if m.message = "" then "An error occurred" else m.message),
       .setThinking false]

/-- The review action as typed in `handleReviewSubmission`. -/
inductive ReviewAction where
  | approve
  | revise
deriving DecidableEq, Repr

/-- The wire string for a review action. -/
def ReviewAction.toWire : ReviewAction → String
  | .approve => "approve"
  | .revise => "revise"

/-- `SidebarProvider.handleUserMessage`: post the user message, show the
thinking indicator, then require an open workspace folder (throwing
`'Please open a workspace folder first'` into the catch block when none is
open, which posts an error and stops the thinking indicator without any
backend call); with a workspace, call `startWorkflow` and on success store
the session id and connect the WebSocket.  The backend interaction is
abstracted as the `start` argument. -/
def handleUserMessage (workspace : Option String) (message : String)
    (start : String → String → Except String WorkflowSession) : List ClientEffect :=
  [.postWebview (.addMessage "user" message), .postWebview (.setThinking true)] ++
  match workspace with
  | none =>
      [.postWebview (.errorMsg "Please open a workspace folder first"),
       .postWebview (.setThinking false)]
  | some path =>
      .startWorkflowCall message path ::
      match start message path with
      | .error e =>
          [.postWebview (.errorMsg e), .postWebview (.setThinking false)]
      | .ok session => [.connectWs session.session_id]

/-- `SidebarProvider.handleReviewSubmission`: submit the review body; on
success, for `approve` post a completion chat message and stop the thinking
indicator, for `revise` post a progress chat message, show the thinking
indicator, and reconnect the WebSocket to keep receiving events; a failed
submission posts an error.  The backend interaction is abstracted as the
`submit` argument. -/
def handleReviewSubmission (sessionId feedback : String) (action : ReviewAction)
    (submit : ReviewBody → Except String Unit) : List ClientEffect :=
  let body : ReviewBody := ⟨sessionId, feedback, action.toWire⟩
  .submitReviewCall body ::
  match submit body with
  | .error e =>
      [.postWebview (.errorMsg e), .postWebview (.setThinking false)]
  | .ok _ =>
      match action with
      | .approve =>
          [.postWebview (.addMessage "assistant" "Work approved! Workflow complete."),
           .postWebview (.setThinking false)]
      | .revise =>
          [.postWebview (.addMessage "assistant" "Creating new plan based on your feedback..."),
           .postWebview (.setThinking true),
           .connectWs sessionId]

/-! ## Workflow engine model

The backend engine (LangGraph workflow, sessions, governance) ships no source
in this repository — only the client and the documentation.  The definitions
below are therefore modelled from the specification (§3, §4.1, §4.2, §4.4). -/

/-- Modelled from the spec: the `status` enum of `WorkflowState`. -/
inductive Status where
  | RUNNING
  | PAUSED
  | COMPLETED
  | FAILED
  | TIMED_OUT
deriving DecidableEq, Repr

/-- Modelled from the spec: one plan step, an instruction with a completion
flag. -/
structure Step where
  instruction : String
  done : Bool
deriving DecidableEq, Repr

/-- Modelled from the spec: a role-tagged message of `conversation_history`. -/
structure ChatMsg where
  role : String
  content : String
deriving DecidableEq, Repr

/-- Modelled from the spec (§3): the `WorkflowState` threaded through all
stages.  `started_at` lives on the `Session` (§3, §4.2) and is held in
`EngineConfig` below. -/
structure WorkflowState where
  thread_id : String
  user_request : String
  plan : List Step
  generated_files : List (String × String)
  conversation_history : List ChatMsg
  active_stage : String
  step_index : Nat
  needs_review : Bool
  review_feedback : Option String
  status : Status
  node_execution_count : Nat
deriving DecidableEq, Repr

/-- Modelled from the spec (§6): the routing decision returned by a stage
capability. -/
inductive Routing where
  | NEXT (stage : String)
  | INTERRUPT
  | DONE (success : Bool)
deriving DecidableEq, Repr

/-- Modelled from the spec (§6): a stage capability, a pure function from the
current state to an updated state and a routing decision. -/
def StageFn : Type := WorkflowState → WorkflowState × Routing

/-- Modelled from the spec (§2): the stage registry, a mapping from stage
name to a pluggable capability. -/
def Registry : Type := String → Option StageFn

/-- Modelled from the spec (§4.2, §6): the governance configuration of a
session — the step ceiling, the wall-clock budget, the session start time and
the current time used by the pre-node timeout check. -/
structure EngineConfig where
  maxNodeExecutions : Nat
  maxDuration : Nat
  startedAt : Nat
  now : Nat
deriving DecidableEq, Repr

/-- Modelled from the spec (§4.2): the state produced when the recursion/step
ceiling halts the workflow: `status=FAILED` with a "step limit exceeded"
error recorded in the conversation history. -/
def stepLimitHalt (s : WorkflowState) : WorkflowState :=
  { s with status := .FAILED,
           conversation_history :=
             s.conversation_history ++ [⟨"system", "step limit exceeded"⟩] }

/-- Result of driving the engine: the final state plus the trace of node
executions actually performed, each recorded as the invoked stage name with
the state it received. -/
structure ExecutionResult where
  finalState : WorkflowState
  trace : List (String × WorkflowState)
deriving DecidableEq, Repr

/-- Modelled from the spec (§4.1): the internal execution loop.  Per node:
(a) governance pre-check — timeout, then step ceiling (`node_execution_count`
compared against the maximum; if reached, halt FAILED); (b) invoke the
capability registered for `active_stage` (an unknown stage fails);
(c) increment `node_execution_count`; (e) apply routing — `INTERRUPT` sets
`status=PAUSED`, `needs_review=true` and returns, `DONE` sets
`COMPLETED`/`FAILED` and returns, `NEXT` continues the loop at the routed
stage.  The structural `fuel` argument is only a termination device: the
wrapper `runWorkflow` supplies enough fuel that the ceiling check always
fires first, so the fuel-exhaustion branch repeats the ceiling halt. -/
def runLoop (cfg : EngineConfig) (reg : Registry) : Nat → WorkflowState → ExecutionResult
  | 0, s => ⟨stepLimitHalt s, []⟩
  | fuel + 1, s =>
    if cfg.startedAt + cfg.maxDuration < cfg.now then
      ⟨{ s with status := .TIMED_OUT,
                conversation_history :=
                  s.conversation_history ++ [⟨"system", "workflow timeout exceeded"⟩] }, []⟩
    else if cfg.maxNodeExecutions ≤ s.node_execution_count then
      ⟨stepLimitHalt s, []⟩
    else
      match reg s.active_stage with
      | none =>
          ⟨{ s with status := .FAILED,
                    conversation_history :=
                      s.conversation_history ++ [⟨"system", "unknown stage"⟩] }, []⟩
      | some f =>
          match f s with
          | (s1, routing) =>
            let s2 := { s1 with node_execution_count := s.node_execution_count + 1 }
            match routing with
            | .INTERRUPT =>
                ⟨{ s2 with status := .PAUSED, needs_review := true }, [(s.active_stage, s)]⟩
            | .DONE ok =>
                ⟨{ s2 with status := if ok then .COMPLETED else .FAILED },
                 [(s.active_stage, s)]⟩
            | .NEXT nxt =>
                let r := runLoop cfg reg fuel { s2 with active_stage := nxt }
                ⟨r.finalState, (s.active_stage, s) :: r.trace⟩

/-- Drive the loop with enough fuel that only governance can stop an
otherwise non-terminating routing cycle. -/
def runWorkflow (cfg : EngineConfig) (reg : Registry) (s : WorkflowState) : ExecutionResult :=
  runLoop cfg reg (cfg.maxNodeExecutions + 1 - s.node_execution_count) s

/-- Modelled from the spec (§7): engine-level error results surfaced to the
Session Manager. -/
inductive EngineError where
  | NotFoundError
  | InvalidStateError
deriving DecidableEq, Repr

/-- Modelled from the spec (§4.1): `start` validates
`initial_state.status == RUNNING` and runs the graph. -/
def engineStart (cfg : EngineConfig) (reg : Registry) (s : WorkflowState) :
    Except EngineError ExecutionResult :=
  if s.status = .RUNNING then .ok (runWorkflow cfg reg s) else .error .InvalidStateError

/-- Modelled from the spec (§4.1): the feedback injection performed by
`resume` — record the feedback, clear `needs_review`, set `status=RUNNING`. -/
def resumeInject (s : WorkflowState) (feedback : String) : WorkflowState :=
  { s with review_feedback := some feedback, needs_review := false, status := .RUNNING }

/-- Modelled from the spec (§4.1): `resume(thread_id, feedback)` on the state
loaded from the latest checkpoint (checkpoint loading itself is the caller's
concern here; a missing checkpoint is `NotFoundError` at that layer): fails
with `InvalidStateError` unless the state is PAUSED, otherwise injects the
feedback and continues execution from `active_stage`. -/
def engineResume (cfg : EngineConfig) (reg : Registry) (s : WorkflowState)
    (feedback : String) : Except EngineError ExecutionResult :=
  if s.status = .PAUSED then .ok (runWorkflow cfg reg (resumeInject s feedback))
  else .error .InvalidStateError

/-- Modelled from the spec (§4.4): Session Manager `submitReview`: `approve`
calls `resume` with empty feedback; `revise` calls `resume` with the feedback
text. -/
def sessionSubmitReview (cfg : EngineConfig) (reg : Registry) (s : WorkflowState)
    (feedback : String) (action : ReviewAction) : Except EngineError ExecutionResult :=
  match action with
  | .approve => engineResume cfg reg s ""
  | .revise => engineResume cfg reg s feedback

/-! ### Modelled stages

The five agent roles of the README (Orchestrator, Context, Code, Debug,
Reviewer) as stage capabilities, modelled from the spec (§4.1, §4.4, §8, §9):
content stages work through the plan; the review stage always interrupts on
first entry, finalizes with success on resume with empty feedback (approve),
and on resume with feedback text routes back to the planning stage after
appending the feedback to the conversation history (revise). -/

/-- Modelled from the spec: mark the first unfinished plan step complete. -/
def markFirstUndone : List Step → List Step
  | [] => []
  | st :: rest => if st.done then st :: markFirstUndone rest else { st with done := true } :: rest

/-- Modelled from the spec: the Orchestrator entry stage routes new work to
the planning (Context) stage. -/
def orchestratorStage : StageFn := fun s => (s, .NEXT "context")

/-- Modelled from the spec: the Context (planning) stage creates a plan for a
fresh request, dispatches unfinished steps to the Code stage, and routes to
the Reviewer once every step is complete. -/
def contextStage : StageFn := fun s =>
  if s.plan.isEmpty then
    ({ s with plan := [⟨s.user_request, false⟩] }, .NEXT "code")
  else if s.plan.all (·.done) then (s, .NEXT "reviewer")
  else (s, .NEXT "code")

/-- Modelled from the spec: the Code stage completes the current plan step,
records a generated file and returns control to planning. -/
def codeStage : StageFn := fun s =>
  ({ s with plan := markFirstUndone s.plan,
            generated_files := s.generated_files ++ [("string_utils.py", "content")],
            step_index := s.step_index + 1 }, .NEXT "context")

/-- Modelled from the spec: the Debug stage records its analysis and returns
control to planning. -/
def debugStage : StageFn := fun s =>
  ({ s with conversation_history := s.conversation_history ++ [⟨"assistant", "debug analysis"⟩] },
   .NEXT "context")

/-- Modelled from the spec: the Reviewer stage interrupts when no feedback is
pending; on resume, empty feedback (approve) finalizes the workflow with
success without touching the plan, and feedback text (revise) is appended to
the conversation history before routing back to planning. -/
def reviewStage : StageFn := fun s =>
  match s.review_feedback with
  | none => (s, .INTERRUPT)
  | some fb =>
      if fb = "" then (s, .DONE true)
      else
        ({ s with conversation_history := s.conversation_history ++ [⟨"user", fb⟩],
                  review_feedback := none }, .NEXT "context")

/-- Modelled from the spec: the stage registry of the five agent roles. -/
def modelRegistry : Registry := fun name =>
  match name with
  | "orchestrator" => some orchestratorStage
  | "context" => some contextStage
  | "code" => some codeStage
  | "debug" => some debugStage
  | "reviewer" => some reviewStage
  | _ => none

/-! ## Helper lemmas -/

/-- A successful prefix check decomposes the list. -/
theorem hasPrefixChars_decomp :
    ∀ p s : List Char, hasPrefixChars p s = true → s = p ++ s.drop p.length := by
  intro p
  induction p with
  | nil => intro s _; simp
  | cons a ps ih =>
    intro s h
    cases s with
    | nil => simp [hasPrefixChars] at h
    | cons c cs =>
      simp [hasPrefixChars] at h
      obtain ⟨rfl, h2⟩ := h
      simpa using ih cs h2

/-- The anchored regex replacement agrees with the spec-side case analysis. -/
theorem wsUrl_eq_wsUrlSpec (base : List Char) : wsUrl base = wsUrlSpec base := by
  by_cases h8 : hasPrefixChars ['h', 't', 't', 'p', 's', ':', '/', '/'] base = true
  · obtain ⟨t, rfl⟩ : ∃ t, base = ['h', 't', 't', 'p', 's', ':', '/', '/'] ++ t :=
      ⟨base.drop 8, hasPrefixChars_decomp _ base h8⟩
    simp [wsUrl, wsUrlSpec, hasPrefixChars]
  · rw [wsUrl, wsUrlSpec, if_neg h8]

/-- One message closing the socket versus its type being terminal coincide. -/
theorem dispatch_closes_eq (m : WsMessage) :
    (dispatchMessage m).closes = isTerminalMsg m.type := by
  obtain ⟨t, a, b, c, d, e⟩ := m
  cases t <;> rfl

/-- The promise action taken by the dispatch is the spec-side one. -/
theorem dispatch_settle_eq (m : WsMessage) :
    (dispatchMessage m).settle = specSettle m := by
  obtain ⟨t, a, b, c, d, e⟩ := m
  cases t <;> rfl

/-- Processing a non-terminal message continues with the rest of the
stream. -/
theorem processMessages_cons_nonterminal (m : WsMessage) (rest : List WsMessage)
    (h : isTerminalMsg m.type = false) :
    processMessages (m :: rest) =
      ⟨(dispatchMessage m).calls ++ (processMessages rest).calls,
       (processMessages rest).settled, (processMessages rest).closed⟩ := by
  simp [processMessages, dispatch_closes_eq, h]

/-- Processing a terminal message stops the stream, closing and settling. -/
theorem processMessages_cons_terminal (m : WsMessage) (rest : List WsMessage)
    (h : isTerminalMsg m.type = true) :
    processMessages (m :: rest) =
      ⟨(dispatchMessage m).calls, (dispatchMessage m).settle, true⟩ := by
  simp [processMessages, dispatch_closes_eq, h]

/-- A stream with no terminal message leaves the promise pending and the
socket open. -/
theorem processMessages_pending (ms : List WsMessage)
    (h : ∀ x ∈ ms, isTerminalMsg x.type = false) :
    (processMessages ms).settled = PromiseOutcome.stayPending ∧
    (processMessages ms).closed = false := by
  induction ms with
  | nil => exact ⟨rfl, rfl⟩
  | cons m rest ih =>
    rw [processMessages_cons_nonterminal m rest (h m (by simp))]
    exact ih fun x hx => h x (by simp [hx])

/-- Full characterisation of a run whose first terminal message is `m`. -/
theorem processMessages_first_terminal (pre : List WsMessage) (m : WsMessage)
    (post : List WsMessage)
    (h1 : ∀ x ∈ pre, isTerminalMsg x.type = false)
    (h2 : isTerminalMsg m.type = true) :
    processMessages (pre ++ m :: post) =
      ⟨(pre.map fun x => (dispatchMessage x).calls).flatten ++ (dispatchMessage m).calls,
       (dispatchMessage m).settle, true⟩ := by
  induction pre with
  | nil => simpa using processMessages_cons_terminal m post h2
  | cons x xs ih =>
    rw [List.cons_append, processMessages_cons_nonterminal x _ (h1 x (by simp)),
      ih (fun y hy => h1 y (by simp [hy]))]
    simp

/-! ## Claim theorems -/

/-- C10: for every configured base URL, the WebSocket endpoint used by
`connectWebSocket` is the base URL with only a leading `"http"` prefix
replaced by `"ws"` (so an `"https://"` base becomes `"wss://"`, and a base
not starting with `"http"` is left unchanged), followed by `"/ws/"` and the
session id. -/
theorem C10_ws_endpoint_from_base (base sessionId : List Char) :
    wsEndpoint base sessionId =
      wsUrlSpec base ++ ('/' :: 'w' :: 's' :: '/' :: []) ++ sessionId := by
  rw [wsEndpoint, wsUrl_eq_wsUrlSpec]

/-- C6: every review submission POSTs to the review endpoint a body holding
exactly the session id, the feedback text and an action drawn from
`{approve, revise}`. -/
theorem C6_review_body_exact (sessionId feedback : String) (a : ReviewAction)
    (submit : ReviewBody → Except String Unit) :
    ClientEffect.submitReviewCall ⟨sessionId, feedback, a.toWire⟩
      ∈ handleReviewSubmission sessionId feedback a submit ∧
    submitReviewPost sessionId feedback a.toWire
      = ("/workflow/review", ⟨sessionId, feedback, a.toWire⟩) ∧
    (a.toWire = "approve" ∨ a.toWire = "revise") := by
  refine ⟨?_, rfl, ?_⟩
  · simp only [handleReviewSubmission]
    exact List.mem_cons_self _ _
  · cases a
    · exact Or.inl rfl
    · exact Or.inr rfl

/-- C8: a user message submitted with no workspace open is rejected before
any session exists: the workflow-start endpoint is never called and a
validation error is reported to the user-facing view. -/
theorem C8_no_workspace_rejected (message : String)
    (start : String → String → Except String WorkflowSession) :
    (∀ req path, ClientEffect.startWorkflowCall req path
        ∉ handleUserMessage none message start) ∧
    ClientEffect.postWebview (WebviewMsg.errorMsg "Please open a workspace folder first")
      ∈ handleUserMessage none message start := by
  constructor
  · intro req path
    simp [handleUserMessage]
  · simp [handleUserMessage]

/-- Witness for C8 at a concrete message and backend stub. -/
theorem C8_no_workspace_rejected_witness :
    ClientEffect.startWorkflowCall "r" "p"
      ∉ handleUserMessage none "hi" (fun _ _ => Except.error "unreachable") ∧
    ClientEffect.postWebview (WebviewMsg.errorMsg "Please open a workspace folder first")
      ∈ handleUserMessage none "hi" (fun _ _ => Except.error "unreachable") :=
  ⟨(C8_no_workspace_rejected "hi" (fun _ _ => Except.error "unreachable")).1 "r" "p",
   (C8_no_workspace_rejected "hi" (fun _ _ => Except.error "unreachable")).2⟩

/-- C5: every workflow-start request POSTs to the start endpoint a body
carrying the request text and the project context (the workspace path), and
a successful response yields the session id the client then connects with. -/
theorem C5_start_request_carries_context (message path : String)
    (start : String → String → Except String WorkflowSession) (sess : WorkflowSession)
    (hok : start message path = Except.ok sess) :
    startWorkflowPost message path = ("/workflow/start", ⟨message, path⟩) ∧
    ClientEffect.startWorkflowCall message path
      ∈ handleUserMessage (some path) message start ∧
    ClientEffect.connectWs sess.session_id
      ∈ handleUserMessage (some path) message start := by
  refine ⟨rfl, ?_, ?_⟩ <;> simp [handleUserMessage, hok]

/-- Witness for C5 at a concrete request and a stub backend that returns a
fixed session. -/
theorem C5_start_request_carries_context_witness :
    (fun (_ _ : String) => (Except.ok ⟨"sid-1", "started", "ok"⟩ : Except String WorkflowSession))
        "make anagram checker" "/w" = (Except.ok ⟨"sid-1", "started", "ok"⟩ : Except String WorkflowSession) ∧
    (startWorkflowPost "make anagram checker" "/w"
        = ("/workflow/start", ⟨"make anagram checker", "/w"⟩) ∧
      ClientEffect.startWorkflowCall "make anagram checker" "/w"
        ∈ handleUserMessage (some "/w") "make anagram checker"
            (fun _ _ => (Except.ok ⟨"sid-1", "started", "ok"⟩ : Except String WorkflowSession)) ∧
      ClientEffect.connectWs
          (WorkflowSession.session_id ⟨"sid-1", "started", "ok"⟩)
        ∈ handleUserMessage (some "/w") "make anagram checker"
            (fun _ _ => (Except.ok ⟨"sid-1", "started", "ok"⟩ : Except String WorkflowSession))) :=
  ⟨rfl, C5_start_request_carries_context "make anagram checker" "/w"
    (fun _ _ => (Except.ok ⟨"sid-1", "started", "ok"⟩ : Except String WorkflowSession)) _ rfl⟩

/-- Modelled from the spec: the per-session push channel emits only the four
typed event kinds `step_update`, `review_required`, `workflow_complete` and
`error`. -/
inductive ServerEventKind where
  | step_update
  | review_required
  | workflow_complete
  | error
deriving DecidableEq, Repr

/-- The message type a server event of a given kind arrives under. -/
def serverKindToMsgType : ServerEventKind → MsgType
  | .step_update => .step_update
  | .review_required => .review_required
  | .workflow_complete => .workflow_complete
  | .error => .error

/-- The callback the spec pairs with each push-event kind. -/
def expectedCallback : ServerEventKind → WsMessage → CallbackCall
  | .step_update, m => .onStepUpdate m
  | .review_required, m => .onReviewRequired m
  | .workflow_complete, m => .onComplete m
  | .error, m => .onError m

/-- Example messages for concrete evaluations. -/
def exMsgStep : WsMessage := ⟨.step_update, 1, ["plan step"], [], "context", ""⟩

/-- Example completion message. -/
def exMsgComplete : WsMessage := ⟨.workflow_complete, 1, [], ["string_utils.py"], "", ""⟩

/-- Example error message. -/
def exMsgError : WsMessage := ⟨.error, 0, [], [], "", "stage failed"⟩

/-- C7: every push-channel event is of one of the four kinds (by construction
of `ServerEventKind`), and a received message of such a kind is dispatched to
exactly the corresponding callback of `WebSocketCallbacks`. -/
theorem C7_push_events_dispatch (k : ServerEventKind) (m : WsMessage)
    (h : m.type = serverKindToMsgType k) :
    (dispatchMessage m).calls = [expectedCallback k m] := by
  obtain ⟨t, a, b, c, d, e⟩ := m
  cases k <;> (simp [serverKindToMsgType] at h; subst h; rfl)

/-- Witness for C7 at the error kind and a concrete message. -/
theorem C7_push_events_dispatch_witness :
    exMsgError.type = serverKindToMsgType ServerEventKind.error ∧
    (dispatchMessage exMsgError).calls = [expectedCallback ServerEventKind.error exMsgError] :=
  ⟨rfl, C7_push_events_dispatch ServerEventKind.error exMsgError rfl⟩

/-- C9: the promise returned by `connectWebSocket` settles exactly on the
first received message of type `review_required`, `workflow_complete` or
`error` — resolving for the first two, rejecting for `error` — the socket is
closed at that point (so later messages are not processed), and a stream of
non-terminal messages (in particular `step_update`) never settles the promise
or closes the connection. -/
theorem C9_promise_settles_on_first_terminal (pre : List WsMessage) (m : WsMessage)
    (post : List WsMessage)
    (h1 : ∀ x ∈ pre, isTerminalMsg x.type = false)
    (h2 : isTerminalMsg m.type = true) :
    (processMessages (pre ++ m :: post)).closed = true ∧
    (processMessages (pre ++ m :: post)).settled = specSettle m ∧
    specSettle m ≠ PromiseOutcome.stayPending ∧
    (processMessages (pre ++ m :: post)).calls
      = (pre.map fun x => (dispatchMessage x).calls).flatten ++ (dispatchMessage m).calls ∧
    (∀ ms : List WsMessage, (∀ x ∈ ms, isTerminalMsg x.type = false) →
      (processMessages ms).settled = PromiseOutcome.stayPending ∧
      (processMessages ms).closed = false) := by
  have hrun := processMessages_first_terminal pre m post h1 h2
  refine ⟨by rw [hrun], by rw [hrun]; exact dispatch_settle_eq m, ?_, by rw [hrun],
    processMessages_pending⟩
  obtain ⟨t, a, b, c, d, e⟩ := m
  cases t <;> simp [specSettle] <;> simp [isTerminalMsg] at h2

/-- Witness for C9: a `step_update`, then a `workflow_complete`, then a
message the closed socket never delivers. -/
theorem C9_promise_settles_on_first_terminal_witness :
    (processMessages ([exMsgStep] ++ exMsgComplete :: [exMsgError])).closed = true ∧
    (processMessages ([exMsgStep] ++ exMsgComplete :: [exMsgError])).settled
      = specSettle exMsgComplete ∧
    specSettle exMsgComplete ≠ PromiseOutcome.stayPending ∧
    (processMessages ([exMsgStep] ++ exMsgComplete :: [exMsgError])).calls
      = ([exMsgStep].map fun x => (dispatchMessage x).calls).flatten
          ++ (dispatchMessage exMsgComplete).calls ∧
    (∀ ms : List WsMessage, (∀ x ∈ ms, isTerminalMsg x.type = false) →
      (processMessages ms).settled = PromiseOutcome.stayPending ∧
      (processMessages ms).closed = false) :=
  C9_promise_settles_on_first_terminal [exMsgStep] exMsgComplete [exMsgError]
    (by decide) (by decide)

/-- C4: an error pushed over the per-session channel is never silently
dropped by the client: the `onError` callback fires, the pending connection
promise is rejected with the error text, the socket closes, and the
`SidebarProvider` error handler posts an error message to the webview. -/
theorem C4_error_event_never_dropped (pre : List WsMessage) (m : WsMessage)
    (post : List WsMessage)
    (h1 : ∀ x ∈ pre, isTerminalMsg x.type = false)
    (h2 : m.type = MsgType.error) :
    CallbackCall.onError m ∈ (processMessages (pre ++ m :: post)).calls ∧
    (processMessages (pre ++ m :: post)).settled = PromiseOutcome.rejected m.message ∧
    (processMessages (pre ++ m :: post)).closed = true ∧
    WebviewMsg.errorMsg (if m.message = "" then "An error occurred" else m.message)
      ∈ ((processMessages (pre ++ m :: post)).calls.map sidebarCallbacks).flatten := by
  have hterm : isTerminalMsg m.type = true := by rw [h2]; rfl
  have hrun := processMessages_first_terminal pre m post h1 hterm
  have hcalls : (dispatchMessage m).calls = [CallbackCall.onError m] := by
    obtain ⟨t, a, b, c, d, e⟩ := m
    simp only [WsMessage.type] at h2
    subst h2
    rfl
  have hsettle : (dispatchMessage m).settle = PromiseOutcome.rejected m.message := by
    obtain ⟨t, a, b, c, d, e⟩ := m
    simp only [WsMessage.type] at h2
    subst h2
    rfl
  refine ⟨?_, ?_, by rw [hrun], ?_⟩
  · rw [hrun]
    simp [hcalls]
  · rw [hrun]
    exact hsettle
  · rw [hrun]
    refine List.mem_flatten.mpr ⟨sidebarCallbacks (CallbackCall.onError m), ?_, ?_⟩
    · exact List.mem_map_of_mem _ (by simp [hcalls])
    · simp [sidebarCallbacks]

/-- Witness for C4 at a concrete error message. -/
theorem C4_error_event_never_dropped_witness :
    CallbackCall.onError exMsgError ∈ (processMessages ([] ++ exMsgError :: [])).calls ∧
    (processMessages ([] ++ exMsgError :: [])).settled
      = PromiseOutcome.rejected exMsgError.message ∧
    (processMessages ([] ++ exMsgError :: [])).closed = true ∧
    WebviewMsg.errorMsg
        (if exMsgError.message = "" then "An error occurred" else exMsgError.message)
      ∈ ((processMessages ([] ++ exMsgError :: [])).calls.map sidebarCallbacks).flatten :=
  C4_error_event_never_dropped [] exMsgError [] (by decide) rfl

/-- When governance passes and the stage is registered, the first trace entry
of a loop iteration is the active stage applied to the incoming state. -/
theorem runLoop_trace_head (cfg : EngineConfig) (reg : Registry) (fuel : Nat)
    (s : WorkflowState) (f : StageFn)
    (htime : cfg.now ≤ cfg.startedAt + cfg.maxDuration)
    (hcount : s.node_execution_count < cfg.maxNodeExecutions)
    (hreg : reg s.active_stage = some f) :
    (runLoop cfg reg (fuel + 1) s).trace[0]? = some (s.active_stage, s) := by
  have h1 : ¬ (cfg.startedAt + cfg.maxDuration < cfg.now) := by omega
  have h2 : ¬ (cfg.maxNodeExecutions ≤ s.node_execution_count) := by omega
  rcases hfs : f s with ⟨s1, routing⟩
  cases routing <;> simp [runLoop, h1, h2, hreg, hfs]

/-- C1: for a session paused in the review state, submitting with action
`approve` makes the Session Manager call `resume` with empty feedback, and
the resumed run finalizes to `COMPLETED` executing only the pending review
stage — in particular no stage whose plan step is already marked complete is
re-executed, and the plan and generated files are unchanged. -/
theorem C1_approve_finalizes_completed (cfg : EngineConfig) (s : WorkflowState)
    (feedback : String)
    (hp : s.status = Status.PAUSED)
    (hstage : s.active_stage = "reviewer")
    (hcount : s.node_execution_count < cfg.maxNodeExecutions)
    (htime : cfg.now ≤ cfg.startedAt + cfg.maxDuration) :
    sessionSubmitReview cfg modelRegistry s feedback ReviewAction.approve
      = engineResume cfg modelRegistry s "" ∧
    ∃ r, engineResume cfg modelRegistry s "" = Except.ok r ∧
      r.finalState.status = Status.COMPLETED ∧
      r.finalState.plan = s.plan ∧
      r.finalState.generated_files = s.generated_files ∧
      r.trace.map Prod.fst = ["reviewer"] := by
  have h1 : ¬ (cfg.startedAt + cfg.maxDuration < cfg.now) := by omega
  have h2 : ¬ (cfg.maxNodeExecutions ≤ s.node_execution_count) := by omega
  refine ⟨rfl, ?_⟩
  rw [engineResume, if_pos hp]
  refine ⟨_, rfl, ?_, ?_, ?_, ?_⟩ <;>
    · rw [runWorkflow,
        show cfg.maxNodeExecutions + 1 - (resumeInject s "").node_execution_count
          = (cfg.maxNodeExecutions - s.node_execution_count) + 1 from by
            simp [resumeInject]; omega]
      simp [runLoop, h1, h2, resumeInject, hstage, modelRegistry, reviewStage]

/-- Witness for C1 at the concrete paused state of the anagram-checker
scenario. -/
theorem C1_approve_finalizes_completed_witness :
    (⟨"t1", "anagram checker", [⟨"anagram checker", true⟩], [("string_utils.py", "content")],
        [], "reviewer", 1, true, none, .PAUSED, 5⟩ : WorkflowState).status = Status.PAUSED ∧
    (sessionSubmitReview ⟨50, 300, 0, 10⟩ modelRegistry
        ⟨"t1", "anagram checker", [⟨"anagram checker", true⟩], [("string_utils.py", "content")],
          [], "reviewer", 1, true, none, .PAUSED, 5⟩ "looks good" ReviewAction.approve
      = engineResume ⟨50, 300, 0, 10⟩ modelRegistry
          ⟨"t1", "anagram checker", [⟨"anagram checker", true⟩], [("string_utils.py", "content")],
            [], "reviewer", 1, true, none, .PAUSED, 5⟩ "" ∧
    ∃ r, engineResume ⟨50, 300, 0, 10⟩ modelRegistry
          ⟨"t1", "anagram checker", [⟨"anagram checker", true⟩], [("string_utils.py", "content")],
            [], "reviewer", 1, true, none, .PAUSED, 5⟩ "" = Except.ok r ∧
      r.finalState.status = Status.COMPLETED ∧
      r.finalState.plan =
        (⟨"t1", "anagram checker", [⟨"anagram checker", true⟩], [("string_utils.py", "content")],
          [], "reviewer", 1, true, none, .PAUSED, 5⟩ : WorkflowState).plan ∧
      r.finalState.generated_files =
        (⟨"t1", "anagram checker", [⟨"anagram checker", true⟩], [("string_utils.py", "content")],
          [], "reviewer", 1, true, none, .PAUSED, 5⟩ : WorkflowState).generated_files ∧
      r.trace.map Prod.fst = ["reviewer"]) :=
  ⟨rfl, C1_approve_finalizes_completed ⟨50, 300, 0, 10⟩ _ "looks good" rfl rfl
    (by decide) (by decide)⟩

/-- One-iteration unfolding of the loop when governance passes and the stage
routes onward. -/
theorem runLoop_succ_next (cfg : EngineConfig) (reg : Registry) (fuel : Nat)
    (s : WorkflowState) (f : StageFn) (s1 : WorkflowState) (nxt : String)
    (htime : cfg.now ≤ cfg.startedAt + cfg.maxDuration)
    (hcount : s.node_execution_count < cfg.maxNodeExecutions)
    (hreg : reg s.active_stage = some f)
    (hfs : f s = (s1, Routing.NEXT nxt)) :
    runLoop cfg reg (fuel + 1) s =
      ⟨(runLoop cfg reg fuel
          { s1 with node_execution_count := s.node_execution_count + 1,
                    active_stage := nxt }).finalState,
       (s.active_stage, s) ::
         (runLoop cfg reg fuel
           { s1 with node_execution_count := s.node_execution_count + 1,
                     active_stage := nxt }).trace⟩ := by
  have h1 : ¬ (cfg.startedAt + cfg.maxDuration < cfg.now) := by omega
  have h2 : ¬ (cfg.maxNodeExecutions ≤ s.node_execution_count) := by omega
  simp [runLoop, h1, h2, hreg, hfs]

/-- C2: for a session paused in the review state, submitting with action
`revise` makes the Session Manager call `resume` with the feedback text, the
review stage routes back to the planning stage instead of terminating, the
next planning-stage invocation receives the feedback inside
`conversation_history`, and the client reconnects its WebSocket to continue
receiving events. -/
theorem C2_revise_routes_back_with_feedback (cfg : EngineConfig) (s : WorkflowState)
    (feedback sessionId : String)
    (hp : s.status = Status.PAUSED)
    (hstage : s.active_stage = "reviewer")
    (hF : feedback ≠ "")
    (hcount : s.node_execution_count + 1 < cfg.maxNodeExecutions)
    (htime : cfg.now ≤ cfg.startedAt + cfg.maxDuration) :
    sessionSubmitReview cfg modelRegistry s feedback ReviewAction.revise
      = engineResume cfg modelRegistry s feedback ∧
    (reviewStage (resumeInject s feedback)).2 = Routing.NEXT "context" ∧
    (∃ r, engineResume cfg modelRegistry s feedback = Except.ok r ∧
      ∃ s1, r.trace[0]? = some ("reviewer", resumeInject s feedback) ∧
        r.trace[1]? = some ("context", s1) ∧
        ChatMsg.mk "user" feedback ∈ s1.conversation_history) ∧
    (∀ submit : ReviewBody → Except String Unit,
      submit ⟨sessionId, feedback, ReviewAction.revise.toWire⟩ = Except.ok () →
      ClientEffect.connectWs sessionId
        ∈ handleReviewSubmission sessionId feedback ReviewAction.revise submit) := by
  have hrs : reviewStage (resumeInject s feedback) =
      ({ resumeInject s feedback with
          conversation_history := s.conversation_history ++ [⟨"user", feedback⟩],
          review_feedback := none }, Routing.NEXT "context") := by
    simp [reviewStage, resumeInject, hF]
  refine ⟨rfl, by rw [hrs], ?_, ?_⟩
  · rw [engineResume, if_pos hp]
    refine ⟨_, rfl, ?_⟩
    rw [runWorkflow,
      show cfg.maxNodeExecutions + 1 - (resumeInject s feedback).node_execution_count
        = ((cfg.maxNodeExecutions - s.node_execution_count - 1) + 1) + 1 from by
          simp [resumeInject]; omega]
    rw [runLoop_succ_next cfg modelRegistry _ (resumeInject s feedback) reviewStage _
      "context" htime (by simp [resumeInject]; omega)
      (by simp [resumeInject, hstage, modelRegistry]) hrs]
    refine ⟨{ resumeInject s feedback with
        conversation_history := s.conversation_history ++ [⟨"user", feedback⟩],
        review_feedback := none,
        node_execution_count := (resumeInject s feedback).node_execution_count + 1,
        active_stage := "context" }, ?_, ?_, ?_⟩
    · simp [resumeInject, hstage]
    · have hhead := runLoop_trace_head cfg modelRegistry
        (cfg.maxNodeExecutions - s.node_execution_count - 1)
        { resumeInject s feedback with
            conversation_history := s.conversation_history ++ [⟨"user", feedback⟩],
            review_feedback := none,
            node_execution_count := (resumeInject s feedback).node_execution_count + 1,
            active_stage := "context" }
        contextStage htime (by simp [resumeInject]; omega) (by simp [modelRegistry])
      simpa using hhead
    · simp [resumeInject]
  · intro submit hsub
    simp only [ReviewAction.toWire] at hsub
    simp [handleReviewSubmission, ReviewAction.toWire, hsub]

/-- Governance configuration used for concrete evaluations. -/
def cfgEx : EngineConfig := ⟨50, 300, 0, 10⟩

/-- The paused review state of the anagram-checker scenario, used for
concrete evaluations. -/
def pausedEx : WorkflowState :=
  ⟨"t1", "anagram checker", [⟨"anagram checker", true⟩], [("string_utils.py", "content")],
   [], "reviewer", 1, true, none, .PAUSED, 5⟩

/-- Witness for C2 at the concrete paused state of the anagram-checker
scenario with feedback "add type hints". -/
theorem C2_revise_routes_back_with_feedback_witness :
    sessionSubmitReview cfgEx modelRegistry pausedEx "add type hints" ReviewAction.revise
      = engineResume cfgEx modelRegistry pausedEx "add type hints" ∧
    (reviewStage (resumeInject pausedEx "add type hints")).2 = Routing.NEXT "context" ∧
    (∃ r, engineResume cfgEx modelRegistry pausedEx "add type hints" = Except.ok r ∧
      ∃ s1, r.trace[0]? = some ("reviewer", resumeInject pausedEx "add type hints") ∧
        r.trace[1]? = some ("context", s1) ∧
        ChatMsg.mk "user" "add type hints" ∈ s1.conversation_history) ∧
    (∀ submit : ReviewBody → Except String Unit,
      submit ⟨"sid-1", "add type hints", ReviewAction.revise.toWire⟩ = Except.ok () →
      ClientEffect.connectWs "sid-1"
        ∈ handleReviewSubmission "sid-1" "add type hints" ReviewAction.revise submit) :=
  C2_revise_routes_back_with_feedback cfgEx pausedEx "add type hints" "sid-1" rfl rfl
    (by decide) (by decide) (by decide)

/-- C3: under a stage registry whose stages always route onward (a cycle that
never terminates or pauses, so the executions would exceed any ceiling) and
with the timeout not in play, the engine performs exactly the configured
maximum number N of node executions and halts with `status=FAILED` and a
"step limit exceeded" error: the governance pre-check aborts the run at the
attempt of execution N+1, so execution N+2 never occurs. -/
theorem C3_step_ceiling_halts_failed (cfg : EngineConfig) (reg : Registry)
    (htime : cfg.now ≤ cfg.startedAt + cfg.maxDuration)
    (hreg : ∀ name, ∃ f, reg name = some f ∧ ∀ st, ∃ nxt, (f st).2 = Routing.NEXT nxt)
    (s : WorkflowState) (hs : s.node_execution_count ≤ cfg.maxNodeExecutions) :
    (runWorkflow cfg reg s).finalState.status = Status.FAILED ∧
    (runWorkflow cfg reg s).trace.length
      = cfg.maxNodeExecutions - s.node_execution_count ∧
    ChatMsg.mk "system" "step limit exceeded"
      ∈ (runWorkflow cfg reg s).finalState.conversation_history := by
  have h1 : ¬ (cfg.startedAt + cfg.maxDuration < cfg.now) := by omega
  suffices h : ∀ gap (s : WorkflowState),
      s.node_execution_count ≤ cfg.maxNodeExecutions →
      cfg.maxNodeExecutions - s.node_execution_count = gap →
      (runWorkflow cfg reg s).finalState.status = Status.FAILED ∧
      (runWorkflow cfg reg s).trace.length
        = cfg.maxNodeExecutions - s.node_execution_count ∧
      ChatMsg.mk "system" "step limit exceeded"
        ∈ (runWorkflow cfg reg s).finalState.conversation_history from
    h _ s hs rfl
  intro gap
  induction gap with
  | zero =>
    intro s hle hgap
    have h2 : cfg.maxNodeExecutions ≤ s.node_execution_count := by omega
    rw [runWorkflow,
      show cfg.maxNodeExecutions + 1 - s.node_execution_count = 0 + 1 from by omega]
    refine ⟨by simp [runLoop, h1, h2, stepLimitHalt], by simp [runLoop, h1, h2],
      by simp [runLoop, h1, h2, stepLimitHalt]⟩
  | succ g ih =>
    intro s hle hgap
    have hlt : s.node_execution_count < cfg.maxNodeExecutions := by omega
    obtain ⟨f, hf, hnext⟩ := hreg s.active_stage
    obtain ⟨nxt, hnxt⟩ := hnext s
    rcases hfs : f s with ⟨s1, routing⟩
    rw [hfs] at hnxt
    simp only at hnxt
    subst hnxt
    have hrw : runWorkflow cfg reg s =
        ⟨(runWorkflow cfg reg
            { s1 with node_execution_count := s.node_execution_count + 1,
                      active_stage := nxt }).finalState,
         (s.active_stage, s) ::
           (runWorkflow cfg reg
             { s1 with node_execution_count := s.node_execution_count + 1,
                       active_stage := nxt }).trace⟩ := by
      rw [runWorkflow, runWorkflow,
        show cfg.maxNodeExecutions + 1 - s.node_execution_count
          = (cfg.maxNodeExecutions + 1
              - ({ s1 with node_execution_count := s.node_execution_count + 1,
                           active_stage := nxt } : WorkflowState).node_execution_count)
            + 1 from by simp; omega]
      exact runLoop_succ_next cfg reg _ s f s1 nxt htime hlt hf hfs
    have hih := ih { s1 with node_execution_count := s.node_execution_count + 1,
                             active_stage := nxt }
      (by simp; omega) (by simp; omega)
    rw [hrw]
    refine ⟨hih.1, ?_, hih.2.2⟩
    have hlen := hih.2.1
    simp only at hlen
    simp [hlen]
    omega

/-- Witness for C3: a one-stage cycle with ceiling 2 performs exactly two
node executions and fails with the step-limit error. -/
theorem C3_step_ceiling_halts_failed_witness :
    (runWorkflow ⟨2, 100, 0, 0⟩ (fun _ => some fun st => (st, Routing.NEXT "loop"))
        ⟨"t", "r", [], [], [], "loop", 0, false, none, .RUNNING, 0⟩).finalState.status
      = Status.FAILED ∧
    (runWorkflow ⟨2, 100, 0, 0⟩ (fun _ => some fun st => (st, Routing.NEXT "loop"))
        ⟨"t", "r", [], [], [], "loop", 0, false, none, .RUNNING, 0⟩).trace.length
      = 2 - 0 ∧
    ChatMsg.mk "system" "step limit exceeded"
      ∈ (runWorkflow ⟨2, 100, 0, 0⟩ (fun _ => some fun st => (st, Routing.NEXT "loop"))
          ⟨"t", "r", [], [], [], "loop", 0, false, none,
            .RUNNING, 0⟩).finalState.conversation_history :=
  C3_step_ceiling_halts_failed ⟨2, 100, 0, 0⟩
    (fun _ => some fun st => (st, Routing.NEXT "loop")) (by decide)
    (fun _ => ⟨fun st => (st, Routing.NEXT "loop"), rfl, fun st => ⟨"loop", rfl⟩⟩)
    ⟨"t", "r", [], [], [], "loop", 0, false, none, .RUNNING, 0⟩ (by decide)

end AgenticEngine
